import Mathlib

/-!
Verification of the stargazer coordinate transformation core
(`include/stargazer/CoordinateTransformations.h`).

The C++ source is a header of three function templates over a numeric type
`T` (plain floating point or a ceres autodiff Jet).  We embed them as Lean
functions over an arbitrary field `T` with decidable equality, mirroring the
genericity of the template parameter.

The rotation primitive `ceres::AngleAxisRotatePoint` is an external
dependency of the repository (it comes from the ceres library, not from this
code base); the transforms take it as an explicit function parameter
`rot : Vec3 T -> Vec3 T -> Vec3 T` (angle-axis vector, input point, output
point).  Properties of the primitive that a claim needs are stated as
explicit hypotheses, modelled from the spec (see `RotZeroIdentity`).

Out-parameter pointer semantics are made explicit: `transformWorld2Img` and
`transformLM2Img` receive the prior values of their two output slots and
return a record holding the new values of those slots together with the list
of diagnostic lines printed to standard output during the call (the source
prints one warning line on the degenerate zero-depth path and nothing
otherwise).  `transformLM2World` unconditionally assigns all three of its
output slots before returning and prints nothing, so it is embedded as a
plain function of its inputs returning all three outputs and its (empty)
log.

The pose and intrinsics slot layouts (`POSE` and `INTRINSICS` enums of
`StargazerTypes.h`, declared by the repository outside the provided source)
are modelled from the spec as records with the documented named slots:
pose = translation X, Y, Z then rotation vector Rx, Ry, Rz; intrinsics =
f, u0, v0, alpha, beta, theta.
-/

namespace stargazer

/-- A 3-vector of scalars, used for points and for angle-axis rotation
vectors. -/
abbrev Vec3 (T : Type) := T × T × T

/-- Modelled from the spec: the six dimensional pose parameter block
(`POSE` enum slots of `StargazerTypes.h`, which is not among the provided
source files): translation X, Y, Z and rotation vector Rx, Ry, Rz in
axis-angle (Rodrigues) form. -/
structure Pose (T : Type) where
  X : T
  Y : T
  Z : T
  Rx : T
  Ry : T
  Rz : T
deriving DecidableEq

/-- Modelled from the spec: the six dimensional camera intrinsics block
(`INTRINSICS` enum slots of `StargazerTypes.h`, which is not among the
provided source files): focal length f, principal point u0, v0, axis scales
alpha, beta, and the skew angle theta (declared but never applied). -/
structure Intrinsics (T : Type) where
  f : T
  u0 : T
  v0 : T
  alpha : T
  beta : T
  theta : T
deriving DecidableEq

/-- Result of `transformLM2World`: the three written output slots and the
diagnostic lines printed during the call. -/
structure LM2WorldResult (T : Type) where
  x_out : T
  y_out : T
  z_out : T
  log : List String
deriving DecidableEq

/-- Result of `transformWorld2Img` and `transformLM2Img`: the values held by
the two output slots after the call (equal to the prior values when the call
returns early without writing) and the diagnostic lines printed during the
call. -/
structure World2ImgResult (T : Type) where
  x_out : T
  y_out : T
  log : List String
deriving DecidableEq

/-- The diagnostic line printed by `transformWorld2Img` on the degenerate
zero-depth path. -/
def divZeroWarning : String := "WARNING; Attempt to divide by 0!"

variable {T : Type} [Field T] [DecidableEq T]

/-- Embedding of `transformLM2World` (CoordinateTransformations.h, lines
38-63).  Builds the landmark-local 3D point with z = 0, rotates it by the
landmark pose rotation vector through the external rotation primitive `rot`,
adds the landmark translation componentwise, and writes all three outputs.
No branch, no diagnostic. -/
def transformLM2World (rot : Vec3 T → Vec3 T → Vec3 T)
    (x_in y_in : T) (lm_pose : Pose T) : LM2WorldResult T :=
  let p_lm : Vec3 T := (x_in, y_in, 0)
  let angleAxisLM : Vec3 T := (lm_pose.Rx, lm_pose.Ry, lm_pose.Rz)
  let p_w : Vec3 T := rot angleAxisLM p_lm
  ⟨p_w.1 + lm_pose.X, p_w.2.1 + lm_pose.Y, p_w.2.2 + lm_pose.Z, []⟩

/-- Embedding of `transformWorld2Img` (CoordinateTransformations.h, lines
78-124).  Subtracts the camera translation from the world point, rotates by
the negated camera rotation vector, applies the intrinsic projection
(including the literal `0 * p_c` cross terms and the `/ 1` of the source),
and divides by depth unless the depth is exactly zero, in which case it
prints the warning and returns with the output slots still holding their
prior values `x_out`, `y_out`. -/
def transformWorld2Img (rot : Vec3 T → Vec3 T → Vec3 T)
    (x_in y_in z_in : T) (camera_pose : Pose T)
    (camera_intrinsics : Intrinsics T) (x_out y_out : T) : World2ImgResult T :=
  let p_w : Vec3 T := (x_in, y_in, z_in)
  let angleAxisCam : Vec3 T := (-camera_pose.Rx, -camera_pose.Ry, -camera_pose.Rz)
  let p_c : Vec3 T :=
    rot angleAxisCam (p_w.1 - camera_pose.X, p_w.2.1 - camera_pose.Y, p_w.2.2 - camera_pose.Z)
  let p_i0 : T := camera_intrinsics.f * camera_intrinsics.alpha * p_c.1 +
    0 * p_c.2.1 + camera_intrinsics.u0 * p_c.2.2
  let p_i1 : T := 0 * p_c.1 +
    camera_intrinsics.f * camera_intrinsics.beta * p_c.2.1 / 1 +
    camera_intrinsics.v0 * p_c.2.2
  let p_i2 : T := p_c.2.2
  if p_i2 = 0 then
    ⟨x_out, y_out, [divZeroWarning]⟩
  else
    -- the source also computes p_i[2] / p_i[2]; the value is never returned
    let _pi2Normalized : T := p_i2 / p_i2
    ⟨p_i0 / p_i2, p_i1 / p_i2, []⟩

/-- Embedding of `transformLM2Img` (CoordinateTransformations.h, lines
138-143).  Calls `transformLM2World` into three stack locals and feeds them
to `transformWorld2Img`, passing its own output slots (with their prior
values) straight through; the call log is the concatenation of the two
callees' logs. -/
def transformLM2Img (rot : Vec3 T → Vec3 T → Vec3 T)
    (x_in y_in : T) (lm_pose camera_pose : Pose T)
    (camera_intrinsics : Intrinsics T) (x_out y_out : T) : World2ImgResult T :=
  let w := transformLM2World rot x_in y_in lm_pose
  let r := transformWorld2Img rot w.x_out w.y_out w.z_out camera_pose
    camera_intrinsics x_out y_out
  ⟨r.x_out, r.y_out, w.log ++ r.log⟩

/-- The camera-relative point computed inside `transformWorld2Img` (lines
91-98 of the source): subtract the camera pose translation componentwise,
then rotate the translated point by the negated camera rotation vector. -/
def camRelativePoint (rot : Vec3 T → Vec3 T → Vec3 T)
    (camera_pose : Pose T) (p : Vec3 T) : Vec3 T :=
  rot (-camera_pose.Rx, -camera_pose.Ry, -camera_pose.Rz)
    (p.1 - camera_pose.X, p.2.1 - camera_pose.Y, p.2.2 - camera_pose.Z)

/-- The intrinsic projection and perspective division stage of
`transformWorld2Img` (lines 107-123 of the source), as a function of the
camera-relative point. -/
def projectCamPoint (camera_intrinsics : Intrinsics T) (p_c : Vec3 T)
    (x_out y_out : T) : World2ImgResult T :=
  let p_i0 : T := camera_intrinsics.f * camera_intrinsics.alpha * p_c.1 +
    0 * p_c.2.1 + camera_intrinsics.u0 * p_c.2.2
  let p_i1 : T := 0 * p_c.1 +
    camera_intrinsics.f * camera_intrinsics.beta * p_c.2.1 / 1 +
    camera_intrinsics.v0 * p_c.2.2
  let p_i2 : T := p_c.2.2
  if p_i2 = 0 then
    ⟨x_out, y_out, [divZeroWarning]⟩
  else
    let _pi2Normalized : T := p_i2 / p_i2
    ⟨p_i0 / p_i2, p_i1 / p_i2, []⟩

/-- Modelled from the spec: the property of the external rotation primitive
(`ceres::AngleAxisRotatePoint`, not part of this repository) that the zero
rotation vector acts as the identity rotation. -/
def RotZeroIdentity (rot : Vec3 T → Vec3 T → Vec3 T) : Prop :=
  ∀ p : Vec3 T, rot (0, 0, 0) p = p

/-- The identity on points, used as a concrete instantiation of the external
rotation primitive in witnesses; it satisfies `RotZeroIdentity`. -/
def qIdRot : Vec3 ℚ → Vec3 ℚ → Vec3 ℚ := fun _ p => p

/- ------------------------------------------------------------------ -/
/- Helper lemmas shared by the claim theorems. -/

/-- `transformWorld2Img` factors as the intrinsic projection stage applied
to the camera-relative point. -/
theorem w2i_factor (rot : Vec3 T → Vec3 T → Vec3 T) (x_in y_in z_in : T)
    (camera_pose : Pose T) (camera_intrinsics : Intrinsics T) (x_out y_out : T) :
    transformWorld2Img rot x_in y_in z_in camera_pose camera_intrinsics x_out y_out =
      projectCamPoint camera_intrinsics
        (camRelativePoint rot camera_pose (x_in, y_in, z_in)) x_out y_out := rfl

/-- On zero camera-relative depth, `transformWorld2Img` prints the warning
and leaves the output slots at their prior values. -/
theorem w2i_degenerate (rot : Vec3 T → Vec3 T → Vec3 T) (x_in y_in z_in : T)
    (camera_pose : Pose T) (camera_intrinsics : Intrinsics T) (x_out y_out : T)
    (hz : (camRelativePoint rot camera_pose (x_in, y_in, z_in)).2.2 = 0) :
    transformWorld2Img rot x_in y_in z_in camera_pose camera_intrinsics x_out y_out =
      ⟨x_out, y_out, [divZeroWarning]⟩ := by
  rw [w2i_factor]
  unfold projectCamPoint
  rw [if_pos hz]

/-- On nonzero camera-relative depth `(px, py, pz)`, `transformWorld2Img`
writes the divided projection and prints nothing. -/
theorem w2i_nondegenerate (rot : Vec3 T → Vec3 T → Vec3 T) (x_in y_in z_in : T)
    (camera_pose : Pose T) (ci : Intrinsics T) (x_out y_out : T)
    (px py pz : T)
    (hcam : camRelativePoint rot camera_pose (x_in, y_in, z_in) = (px, py, pz))
    (hz : pz ≠ 0) :
    transformWorld2Img rot x_in y_in z_in camera_pose ci x_out y_out =
      ⟨(ci.f * ci.alpha * px + ci.u0 * pz) / pz,
       (ci.f * ci.beta * py + ci.v0 * pz) / pz, []⟩ := by
  rw [w2i_factor, hcam]
  unfold projectCamPoint
  rw [if_neg hz]
  simp only [World2ImgResult.mk.injEq, and_true]
  constructor <;> ring_nf

/- ------------------------------------------------------------------ -/
/- Claim theorems. -/

/-- C1: for every world point whose camera-relative point is (px, py, pz)
with pz nonzero, `transformWorld2Img` returns
x_out = (f * alpha * px + u0 * pz) / pz and
y_out = (f * beta * py + v0 * pz) / pz, with no diagnostic; the third
projected coordinate is computed in the source but not returned (the result
record has only the two output slots). -/
theorem transformWorld2Img_formula (rot : Vec3 T → Vec3 T → Vec3 T)
    (x_in y_in z_in : T) (camera_pose : Pose T) (ci : Intrinsics T)
    (x_out y_out px py pz : T)
    (hcam : camRelativePoint rot camera_pose (x_in, y_in, z_in) = (px, py, pz))
    (hz : pz ≠ 0) :
    transformWorld2Img rot x_in y_in z_in camera_pose ci x_out y_out =
      ⟨(ci.f * ci.alpha * px + ci.u0 * pz) / pz,
       (ci.f * ci.beta * py + ci.v0 * pz) / pz, []⟩ :=
  w2i_nondegenerate rot x_in y_in z_in camera_pose ci x_out y_out px py pz hcam hz

/-- Witness for C1 at a concrete rational input with depth 3. -/
theorem transformWorld2Img_formula_witness :
    camRelativePoint qIdRot (⟨0, 0, 0, 0, 0, 0⟩ : Pose ℚ) (1, 2, 3) = (1, 2, 3) ∧
    (3 : ℚ) ≠ 0 ∧
    transformWorld2Img qIdRot (1 : ℚ) 2 3 ⟨0, 0, 0, 0, 0, 0⟩ ⟨2, 1, 1, 1, 1, 9⟩ 7 8 =
      ⟨(2 * 1 * 1 + 1 * 3) / 3, (2 * 1 * 2 + 1 * 3) / 3, []⟩ :=
  ⟨by simp [camRelativePoint, qIdRot], by norm_num,
   transformWorld2Img_formula qIdRot 1 2 3 ⟨0, 0, 0, 0, 0, 0⟩ ⟨2, 1, 1, 1, 1, 9⟩
     7 8 1 2 3 (by simp [camRelativePoint, qIdRot]) (by norm_num)⟩

/-- C2: when the camera-relative depth is exactly zero, `transformWorld2Img`
emits the diagnostic line and returns early: no division is performed and
both output slots keep their prior values. -/
theorem transformWorld2Img_zero_depth (rot : Vec3 T → Vec3 T → Vec3 T)
    (x_in y_in z_in : T) (camera_pose : Pose T) (ci : Intrinsics T)
    (x_out y_out : T)
    (hz : (camRelativePoint rot camera_pose (x_in, y_in, z_in)).2.2 = 0) :
    transformWorld2Img rot x_in y_in z_in camera_pose ci x_out y_out =
      ⟨x_out, y_out, [divZeroWarning]⟩ :=
  w2i_degenerate rot x_in y_in z_in camera_pose ci x_out y_out hz

/-- Witness for C2: a world point on the camera focal plane; the prior
output values 7, 8 survive and the warning is logged. -/
theorem transformWorld2Img_zero_depth_witness :
    (camRelativePoint qIdRot (⟨0, 0, 0, 0, 0, 0⟩ : Pose ℚ) (1, 2, 0)).2.2 = 0 ∧
    transformWorld2Img qIdRot (1 : ℚ) 2 0 ⟨0, 0, 0, 0, 0, 0⟩ ⟨2, 1, 1, 1, 1, 9⟩ 7 8 =
      ⟨7, 8, [divZeroWarning]⟩ :=
  ⟨by simp [camRelativePoint, qIdRot],
   transformWorld2Img_zero_depth qIdRot 1 2 0 ⟨0, 0, 0, 0, 0, 0⟩ ⟨2, 1, 1, 1, 1, 9⟩
     7 8 (by simp [camRelativePoint, qIdRot])⟩

/-- C3: with nonzero camera-relative depth, `transformLM2Img` produces
exactly the same result as `transformLM2World` followed by
`transformWorld2Img` on its output. -/
theorem transformLM2Img_composition (rot : Vec3 T → Vec3 T → Vec3 T)
    (x_in y_in : T) (lm_pose camera_pose : Pose T) (ci : Intrinsics T)
    (x_out y_out : T)
    (_hz : (camRelativePoint rot camera_pose
      ((transformLM2World rot x_in y_in lm_pose).x_out,
       (transformLM2World rot x_in y_in lm_pose).y_out,
       (transformLM2World rot x_in y_in lm_pose).z_out)).2.2 ≠ 0) :
    transformLM2Img rot x_in y_in lm_pose camera_pose ci x_out y_out =
      transformWorld2Img rot (transformLM2World rot x_in y_in lm_pose).x_out
        (transformLM2World rot x_in y_in lm_pose).y_out
        (transformLM2World rot x_in y_in lm_pose).z_out
        camera_pose ci x_out y_out := rfl

/-- Witness for C3: a landmark lifted to depth 3 in front of a camera at
the origin. -/
theorem transformLM2Img_composition_witness :
    (camRelativePoint qIdRot (⟨0, 0, 0, 0, 0, 0⟩ : Pose ℚ)
      ((transformLM2World qIdRot (1 : ℚ) 2 ⟨0, 0, 3, 0, 0, 0⟩).x_out,
       (transformLM2World qIdRot (1 : ℚ) 2 ⟨0, 0, 3, 0, 0, 0⟩).y_out,
       (transformLM2World qIdRot (1 : ℚ) 2 ⟨0, 0, 3, 0, 0, 0⟩).z_out)).2.2 ≠ 0 ∧
    transformLM2Img qIdRot (1 : ℚ) 2 ⟨0, 0, 3, 0, 0, 0⟩ ⟨0, 0, 0, 0, 0, 0⟩
      ⟨2, 1, 1, 1, 1, 9⟩ 7 8 =
      transformWorld2Img qIdRot
        (transformLM2World qIdRot (1 : ℚ) 2 ⟨0, 0, 3, 0, 0, 0⟩).x_out
        (transformLM2World qIdRot (1 : ℚ) 2 ⟨0, 0, 3, 0, 0, 0⟩).y_out
        (transformLM2World qIdRot (1 : ℚ) 2 ⟨0, 0, 3, 0, 0, 0⟩).z_out
        ⟨0, 0, 0, 0, 0, 0⟩ ⟨2, 1, 1, 1, 1, 9⟩ 7 8 :=
  ⟨by norm_num [camRelativePoint, qIdRot, transformLM2World],
   transformLM2Img_composition qIdRot 1 2 ⟨0, 0, 3, 0, 0, 0⟩ ⟨0, 0, 0, 0, 0, 0⟩
     ⟨2, 1, 1, 1, 1, 9⟩ 7 8 (by norm_num [camRelativePoint, qIdRot, transformLM2World])⟩

/-- C4: `transformWorld2Img` computes the camera-relative point by first
subtracting the camera translation slots componentwise and then rotating the
translated point by the negated camera rotation vector through the rotation
primitive; the whole function factors through that point. -/
theorem transformWorld2Img_camRelative_factorization (rot : Vec3 T → Vec3 T → Vec3 T)
    (x_in y_in z_in : T) (camera_pose : Pose T) (ci : Intrinsics T)
    (x_out y_out : T) :
    transformWorld2Img rot x_in y_in z_in camera_pose ci x_out y_out =
      projectCamPoint ci
        (rot (-camera_pose.Rx, -camera_pose.Ry, -camera_pose.Rz)
          (x_in - camera_pose.X, y_in - camera_pose.Y, z_in - camera_pose.Z))
        x_out y_out := rfl

omit [DecidableEq T] in
/-- C5: for a landmark pose with zero rotation vector and translation
(tx, ty, tz), `transformLM2World` returns (x + tx, y + ty, tz); with zero
translation it returns (x, y, 0) unchanged.  Uses the spec-modelled property
that the rotation primitive is the identity on the zero rotation vector. -/
theorem transformLM2World_translation_only (rot : Vec3 T → Vec3 T → Vec3 T)
    (hrot : RotZeroIdentity rot) (x y tx ty tz : T) :
    transformLM2World rot x y ⟨tx, ty, tz, 0, 0, 0⟩ = ⟨x + tx, y + ty, tz, []⟩ ∧
    transformLM2World rot x y ⟨0, 0, 0, 0, 0, 0⟩ = ⟨x, y, 0, []⟩ := by
  have h0 : rot 0 (x, y, 0) = (x, y, 0) := hrot (x, y, 0)
  constructor <;> simp [transformLM2World, h0]

/-- Witness for C5 at x = 1, y = 2, translation (3, 4, 5). -/
theorem transformLM2World_translation_only_witness :
    RotZeroIdentity qIdRot ∧
    transformLM2World qIdRot (1 : ℚ) 2 ⟨3, 4, 5, 0, 0, 0⟩ = ⟨1 + 3, 2 + 4, 5, []⟩ ∧
    transformLM2World qIdRot (1 : ℚ) 2 ⟨0, 0, 0, 0, 0, 0⟩ = ⟨1, 2, 0, []⟩ :=
  ⟨fun _ => rfl, transformLM2World_translation_only qIdRot (fun _ => rfl) 1 2 3 4 5⟩

/-- C6: the skew slot theta is never read: two intrinsics blocks agreeing on
f, u0, v0, alpha, beta give identical outputs of `transformWorld2Img` and of
`transformLM2Img` on every input. -/
theorem intrinsics_theta_unused (rot : Vec3 T → Vec3 T → Vec3 T)
    (x_in y_in z_in : T) (lm_pose camera_pose : Pose T)
    (ci1 ci2 : Intrinsics T) (x_out y_out : T)
    (hf : ci1.f = ci2.f) (hu : ci1.u0 = ci2.u0) (hv : ci1.v0 = ci2.v0)
    (ha : ci1.alpha = ci2.alpha) (hb : ci1.beta = ci2.beta) :
    transformWorld2Img rot x_in y_in z_in camera_pose ci1 x_out y_out =
      transformWorld2Img rot x_in y_in z_in camera_pose ci2 x_out y_out ∧
    transformLM2Img rot x_in y_in lm_pose camera_pose ci1 x_out y_out =
      transformLM2Img rot x_in y_in lm_pose camera_pose ci2 x_out y_out := by
  obtain ⟨f1, u1, v1, a1, b1, t1⟩ := ci1
  obtain ⟨f2, u2, v2, a2, b2, t2⟩ := ci2
  dsimp at hf hu hv ha hb
  subst hf hu hv ha hb
  exact ⟨rfl, rfl⟩

/-- Witness for C6: two intrinsics blocks differing only in theta. -/
theorem intrinsics_theta_unused_witness :
    ((⟨2, 1, 1, 3, 4, 9⟩ : Intrinsics ℚ).f = (⟨2, 1, 1, 3, 4, 90⟩ : Intrinsics ℚ).f) ∧
    transformWorld2Img qIdRot (1 : ℚ) 2 3 ⟨0, 0, 0, 0, 0, 0⟩ ⟨2, 1, 1, 3, 4, 9⟩ 7 8 =
      transformWorld2Img qIdRot (1 : ℚ) 2 3 ⟨0, 0, 0, 0, 0, 0⟩ ⟨2, 1, 1, 3, 4, 90⟩ 7 8 ∧
    transformLM2Img qIdRot (1 : ℚ) 2 ⟨0, 0, 3, 0, 0, 0⟩ ⟨0, 0, 0, 0, 0, 0⟩
      ⟨2, 1, 1, 3, 4, 9⟩ 7 8 =
      transformLM2Img qIdRot (1 : ℚ) 2 ⟨0, 0, 3, 0, 0, 0⟩ ⟨0, 0, 0, 0, 0, 0⟩
        ⟨2, 1, 1, 3, 4, 90⟩ 7 8 :=
  ⟨rfl,
   intrinsics_theta_unused qIdRot 1 2 3 ⟨0, 0, 3, 0, 0, 0⟩ ⟨0, 0, 0, 0, 0, 0⟩
     ⟨2, 1, 1, 3, 4, 9⟩ ⟨2, 1, 1, 3, 4, 90⟩ 7 8 rfl rfl rfl rfl rfl⟩

/-- C7: when the composed `transformLM2Img` hits a zero camera-relative
depth inside `transformWorld2Img`, it also leaves its output slots at their
prior values and its log is exactly the single warning line, with no
additional handling of its own. -/
theorem transformLM2Img_degenerate_propagation (rot : Vec3 T → Vec3 T → Vec3 T)
    (x_in y_in : T) (lm_pose camera_pose : Pose T) (ci : Intrinsics T)
    (x_out y_out : T)
    (hz : (camRelativePoint rot camera_pose
      ((transformLM2World rot x_in y_in lm_pose).x_out,
       (transformLM2World rot x_in y_in lm_pose).y_out,
       (transformLM2World rot x_in y_in lm_pose).z_out)).2.2 = 0) :
    transformLM2Img rot x_in y_in lm_pose camera_pose ci x_out y_out =
      ⟨x_out, y_out, [divZeroWarning]⟩ := by
  simp only [transformLM2Img]
  rw [w2i_degenerate rot _ _ _ camera_pose ci x_out y_out hz]
  simp [transformLM2World]

/-- Witness for C7: a landmark already on the camera focal plane; prior
outputs 7, 8 survive and exactly one warning is logged. -/
theorem transformLM2Img_degenerate_propagation_witness :
    (camRelativePoint qIdRot (⟨0, 0, 0, 0, 0, 0⟩ : Pose ℚ)
      ((transformLM2World qIdRot (1 : ℚ) 2 ⟨0, 0, 0, 0, 0, 0⟩).x_out,
       (transformLM2World qIdRot (1 : ℚ) 2 ⟨0, 0, 0, 0, 0, 0⟩).y_out,
       (transformLM2World qIdRot (1 : ℚ) 2 ⟨0, 0, 0, 0, 0, 0⟩).z_out)).2.2 = 0 ∧
    transformLM2Img qIdRot (1 : ℚ) 2 ⟨0, 0, 0, 0, 0, 0⟩ ⟨0, 0, 0, 0, 0, 0⟩
      ⟨2, 1, 1, 1, 1, 9⟩ 7 8 = ⟨7, 8, [divZeroWarning]⟩ :=
  ⟨by simp [camRelativePoint, qIdRot, transformLM2World],
   transformLM2Img_degenerate_propagation qIdRot 1 2 ⟨0, 0, 0, 0, 0, 0⟩
     ⟨0, 0, 0, 0, 0, 0⟩ ⟨2, 1, 1, 1, 1, 9⟩ 7 8
     (by simp [camRelativePoint, qIdRot, transformLM2World])⟩

/-- C8: with a zero camera pose and intrinsics f = 1, u0 = 0, v0 = 0,
alpha = 1, beta = 1 (theta arbitrary), the world point (0, 0, 5) projects to
the image point (0, 0).  Stated over the rationals; uses the spec-modelled
zero-rotation identity of the rotation primitive. -/
theorem transformWorld2Img_canonical_projection (rot : Vec3 ℚ → Vec3 ℚ → Vec3 ℚ)
    (hrot : RotZeroIdentity rot) (t x_out y_out : ℚ) :
    transformWorld2Img rot 0 0 5 ⟨0, 0, 0, 0, 0, 0⟩ ⟨1, 0, 0, 1, 1, t⟩ x_out y_out =
      ⟨0, 0, []⟩ := by
  have h : camRelativePoint rot (⟨0, 0, 0, 0, 0, 0⟩ : Pose ℚ) (0, 0, 5) = (0, 0, 5) := by
    simp only [camRelativePoint]
    norm_num
    exact hrot (0, 0, 5)
  rw [w2i_nondegenerate rot 0 0 5 ⟨0, 0, 0, 0, 0, 0⟩ ⟨1, 0, 0, 1, 1, t⟩
    x_out y_out 0 0 5 h (by norm_num)]
  norm_num

/-- Witness for C8 with the identity instantiation of the rotation
primitive. -/
theorem transformWorld2Img_canonical_projection_witness :
    RotZeroIdentity qIdRot ∧
    transformWorld2Img qIdRot (0 : ℚ) 0 5 ⟨0, 0, 0, 0, 0, 0⟩ ⟨1, 0, 0, 1, 1, 7⟩ 9 9 =
      ⟨0, 0, []⟩ :=
  ⟨fun _ => rfl, transformWorld2Img_canonical_projection qIdRot (fun _ => rfl) 7 9 9⟩

omit [DecidableEq T] in
/-- C9: `transformLM2World` is total: on every input it returns all three
output slots written and an empty log (no error branch, no diagnostic). -/
theorem transformLM2World_total_no_diagnostic (rot : Vec3 T → Vec3 T → Vec3 T)
    (x_in y_in : T) (lm_pose : Pose T) :
    (transformLM2World rot x_in y_in lm_pose).log = [] ∧
    transformLM2World rot x_in y_in lm_pose =
      ⟨(transformLM2World rot x_in y_in lm_pose).x_out,
       (transformLM2World rot x_in y_in lm_pose).y_out,
       (transformLM2World rot x_in y_in lm_pose).z_out, []⟩ := ⟨rfl, rfl⟩

/-- C10: any nonzero camera-relative depth, negative included, takes the
division path: the outputs of `transformWorld2Img` do not depend on the
prior output values and no diagnostic is logged; there is no behind-camera
check. -/
theorem transformWorld2Img_nonzero_depth_writes (rot : Vec3 T → Vec3 T → Vec3 T)
    (x_in y_in z_in : T) (camera_pose : Pose T) (ci : Intrinsics T)
    (a b c d : T)
    (hz : (camRelativePoint rot camera_pose (x_in, y_in, z_in)).2.2 ≠ 0) :
    transformWorld2Img rot x_in y_in z_in camera_pose ci a b =
      transformWorld2Img rot x_in y_in z_in camera_pose ci c d ∧
    (transformWorld2Img rot x_in y_in z_in camera_pose ci a b).log = [] := by
  rw [w2i_factor, w2i_factor]
  unfold projectCamPoint
  rw [if_neg hz, if_neg hz]
  exact ⟨rfl, rfl⟩

/-- Witness for C10 at a strictly negative camera-relative depth -5: prior
outputs (3, 4) and (30, 40) give the same written result, with empty log. -/
theorem transformWorld2Img_nonzero_depth_writes_witness :
    (camRelativePoint qIdRot (⟨0, 0, 0, 0, 0, 0⟩ : Pose ℚ) (1, 2, -5)).2.2 ≠ 0 ∧
    transformWorld2Img qIdRot (1 : ℚ) 2 (-5) ⟨0, 0, 0, 0, 0, 0⟩ ⟨2, 1, 1, 1, 1, 9⟩ 3 4 =
      transformWorld2Img qIdRot (1 : ℚ) 2 (-5) ⟨0, 0, 0, 0, 0, 0⟩ ⟨2, 1, 1, 1, 1, 9⟩ 30 40 ∧
    (transformWorld2Img qIdRot (1 : ℚ) 2 (-5) ⟨0, 0, 0, 0, 0, 0⟩
      ⟨2, 1, 1, 1, 1, 9⟩ 3 4).log = [] :=
  ⟨by norm_num [camRelativePoint, qIdRot],
   transformWorld2Img_nonzero_depth_writes qIdRot 1 2 (-5) ⟨0, 0, 0, 0, 0, 0⟩
     ⟨2, 1, 1, 1, 1, 9⟩ 3 4 30 40 (by norm_num [camRelativePoint, qIdRot])⟩

end stargazer
